import Mathlib

/-!
Verification of the core of cmdtime (src/src/main.rs), a Windows analogue of
the Unix time utility.  The program creates a suspended process, attaches it
to a job object bound to an IO completion port, resumes it, waits until the
job reports that its active process count is zero, reads the job's aggregate
CPU accounting, and prints real/user/sys durations.

Shallow embedding notes:
- f64 values (performance counter samples, frequency, tick counts converted
  to seconds) are modelled as exact rationals; every claim settled here is
  about which quantities enter which formula, not about rounding of binary
  floating point.
- OS calls are modelled by an oracle (structure Os) that fixes, for each
  call the program makes, whether it succeeds and what value it yields, and
  by the queue of completion packets the port delivers.
- main is modelled as a function from the oracle to the finite trace of
  observable steps it performs (OS calls, CloseHandle calls issued by Drop
  implementations, diagnostic prints, duration prints, process exit)
  together with the final outcome.  Rust std::process::exit does not run
  Drop implementations, so no closeHandle steps are emitted on fatal paths;
  JobDescr has no Drop implementation, so no closeHandle step for the job or
  the port is ever emitted: the OS reclaims those handles at process
  termination, the trace's final exitProcess step.
-/

namespace Cmdtime

/-- Windows message code JOB_OBJECT_MSG_ACTIVE_PROCESS_ZERO (winnt.h value 4),
posted to the completion port when the job's active process count reaches 0. -/
def JOB_OBJECT_MSG_ACTIVE_PROCESS_ZERO : Nat := 4

/-- One dequeue outcome of GetQueuedCompletionStatus on the job's port:
either the call fails (returns FALSE), or it yields a packet carrying a
completion key (the job configured its key to be the job handle) and a
message code. -/
inductive GqcsEvent where
  | failure : GqcsEvent
  | notif (key : Nat) (code : Nat) : GqcsEvent
  deriving DecidableEq

/-- The exit condition of the while loop in JobDescr::wait_for_job_completion
(src/src/main.rs lines 209-218): the loop continues while the dequeue
returned TRUE and the packet is not (key = hjob, code = ACTIVE_PROCESS_ZERO);
hence it stops on a failed dequeue or on the matching packet. -/
def stopsWait (hjob : Nat) : GqcsEvent → Bool
  | GqcsEvent.failure => true
  | GqcsEvent.notif key code =>
      key == hjob && code == JOB_OBJECT_MSG_ACTIVE_PROCESS_ZERO

/-- JobDescr::wait_for_job_completion over a finite queue of dequeue
outcomes: consumes events until one stops the loop, returning the consumed
prefix (terminator included); none means the queue was exhausted with the
loop still blocked in an INFINITE wait. -/
def wait_for_job_completion (hjob : Nat) : List GqcsEvent → Option (List GqcsEvent)
  | [] => none
  | e :: rest =>
      if stopsWait hjob e then some [e]
      else (wait_for_job_completion hjob rest).map (fun c => e :: c)

/-- The accounting result of JobDescr::get_job_times: user and kernel CPU
seconds for the whole job. -/
structure Times where
  user : ℚ
  kernel : ℚ
  deriving DecidableEq

/-- to_seconds in JobDescr::get_job_times: a 100ns tick count (LARGE_INTEGER
QuadPart) divided by the fixed constant 10 000 000.0. -/
def to_seconds (value : Int) : ℚ := (value : ℚ) / 10000000

/-- JobDescr::get_job_times on the tick counts the accounting query yields:
TotalUserTime and TotalKernelTime each converted by to_seconds. -/
def get_job_times (userTicks kernelTicks : Int) : Times :=
  Times.mk (to_seconds userTicks) (to_seconds kernelTicks)

/-- Three decimal digits, left padded with zeros. -/
def pad3 (n : Nat) : String :=
  if n < 10 then "00" ++ toString n
  else if n < 100 then "0" ++ toString n
  else toString n

/-- Fixed three decimal places for a nonnegative rational: round to the
nearest thousandth and render. -/
def fmt3Nonneg (q : ℚ) : String :=
  let n : Nat := (round (q * 1000)).toNat
  toString (n / 1000) ++ "." ++ pad3 (n % 1000)

/-- Rust format specifier {:.3} applied to a duration value, modelled on
rationals: round to three decimal places and print with exactly three
digits after the point. -/
def fmt3 (q : ℚ) : String :=
  if q < 0 then "-" ++ fmt3Nonneg (-q) else fmt3Nonneg q

/-- print_duration (src/src/main.rs lines 251-257), the line content written
for one label: minutes is seconds.floor() as i64 / 60 (Rust i64 division
truncates, hence Int.tdiv), the seconds field is seconds - 60.0 * minutes,
and the line is "<name>\t<minutes>m<seconds:.3>s" (writeln! then appends the
newline terminator, not modelled as part of the line). -/
def print_duration (name : String) (seconds : ℚ) : String :=
  let minutes : Int := Int.tdiv ⌊seconds⌋ 60
  let secs : ℚ := seconds - 60 * (minutes : ℚ)
  name ++ "\t" ++ toString minutes ++ "m" ++ fmt3 secs ++ "s"

/-- UTF-16 code units of one scalar value, as Rust OsStr::encode_wide
produces them: BMP scalars map to themselves, others to a surrogate pair. -/
def utf16_units (c : Char) : List Nat :=
  if c.toNat < 65536 then [c.toNat]
  else [55296 + (c.toNat - 65536) / 1024, 56320 + (c.toNat - 65536) % 1024]

/-- convert_utf16 (src/src/main.rs lines 129-131): the UTF-16 code units of
the string followed by a single terminating NUL unit. -/
def convert_utf16 (s : String) : List Nat :=
  (s.data.map utf16_units).flatten ++ [0]

/-- The command line main hands to CreateProcessW (src/src/main.rs lines
337-344): the remaining argument tokens joined with single spaces
(args.join(" ")), then UTF-16 encoded with one terminating NUL; no quoting
or escaping is applied. -/
def command_line (args : List String) : List Nat :=
  convert_utf16 (String.intercalate " " args)

/-- The kernel handles the run acquires and that Drop implementations can
close. -/
inductive Handle where
  | hprocess : Handle
  | hthread : Handle
  | hjob : Handle
  | hiocp : Handle
  deriving DecidableEq

/-- One observable step of a run of main: an OS call with its success flag,
a CloseHandle issued by a Drop implementation, a dequeued completion packet,
the return of the wait loop, a diagnostic print of a failing operation's
name (win32_assert / win32_assert_not_null also append the platform error
description), a duration line print, or process exit. -/
inductive Step where
  | queryPerfFreq (ok : Bool) : Step
  | createJobObject (ok : Bool) : Step
  | createIoCompletionPort (ok : Bool) : Step
  | setInformationJobObject (ok : Bool) : Step
  | createProcess (ok : Bool) : Step
  | assignProcessToJob (ok : Bool) : Step
  | closeHandle (h : Handle) : Step
  | queryPerfCounter (ok : Bool) : Step
  | resumeThread (ok : Bool) : Step
  | dequeue (e : GqcsEvent) : Step
  | waitReturned : Step
  | queryJobTimes (ok : Bool) : Step
  | printErr (opName : String) : Step
  | printLine (line : String) : Step
  | exitProcess (code : Int) : Step
  deriving DecidableEq

/-- Final outcome of a run: the process exited with a code, or is still
blocked in the INFINITE wait. -/
inductive Outcome where
  | exited (code : Int) : Outcome
  | blocked : Outcome
  deriving DecidableEq

/-- The OS oracle for one run: for each call main makes, whether it
succeeds, and the values the successful calls yield.  The queue lists the
dequeue outcomes the completion port delivers. -/
structure Os where
  hjobKey : Nat
  freqOk : Bool
  freq : ℚ
  jobOk : Bool
  iocpOk : Bool
  setInfoOk : Bool
  createProcOk : Bool
  attachOk : Bool
  counter0Ok : Bool
  counter0 : ℚ
  resumeOk : Bool
  queue : List GqcsEvent
  counter1Ok : Bool
  counter1 : ℚ
  queryTimesOk : Bool
  userTicks : Int
  kernelTicks : Int

/-- A fatal OS-call failure as win32_assert / win32_assert_not_null perform
it: the failing step, then the diagnostic print of the operation name (with
the platform error description), then std::process::exit(EXIT_ERROR) with
EXIT_ERROR = 2.  process::exit runs no Drop implementations, so no
closeHandle steps follow. -/
def errExit (pre : List Step) (s : Step) (opName : String) : List Step × Outcome :=
  (pre ++ [s, Step.printErr opName, Step.exitProcess 2], Outcome.exited 2)

/-- The first ten steps of every run whose OS calls up to the resume all
succeed: frequency query, job creation, port creation, port association,
suspended process creation, attach, drop(process), first counter sample,
resume (whose failure flag the code ignores), drop(thread). -/
def okPrefix (resumeOk : Bool) : List Step :=
  [Step.queryPerfFreq true, Step.createJobObject true,
   Step.createIoCompletionPort true, Step.setInformationJobObject true,
   Step.createProcess true, Step.assignProcessToJob true,
   Step.closeHandle Handle.hprocess, Step.queryPerfCounter true,
   Step.resumeThread resumeOk, Step.closeHandle Handle.hthread]

/-- The run of main (src/src/main.rs lines 342-361) against an OS oracle,
as the trace of observable steps and the final outcome.  Argument parsing
and output-stream selection (lines 326-340) are out of scope of the claims;
the model starts at the frequency query.  The caller-name strings are the
ones the source passes: note the counter query passes
"QueryPerformanceFrequency" (line 116) and the resume's result is discarded
(line 75). -/
def main_run (os : Os) : List Step × Outcome :=
  if os.freqOk = false then
    errExit [] (Step.queryPerfFreq false) "QueryPerformanceFrequency"
  else if os.jobOk = false then
    errExit [Step.queryPerfFreq true] (Step.createJobObject false) "CreateJobObjectW"
  else if os.iocpOk = false then
    errExit [Step.queryPerfFreq true, Step.createJobObject true]
      (Step.createIoCompletionPort false) "CreateIoCompletionPort"
  else if os.setInfoOk = false then
    errExit [Step.queryPerfFreq true, Step.createJobObject true,
      Step.createIoCompletionPort true]
      (Step.setInformationJobObject false) "SetInformationJobObject"
  else if os.createProcOk = false then
    errExit [Step.queryPerfFreq true, Step.createJobObject true,
      Step.createIoCompletionPort true, Step.setInformationJobObject true]
      (Step.createProcess false) "CreateProcessW"
  else if os.attachOk = false then
    errExit [Step.queryPerfFreq true, Step.createJobObject true,
      Step.createIoCompletionPort true, Step.setInformationJobObject true,
      Step.createProcess true]
      (Step.assignProcessToJob false) "AssignProcessToJobObject"
  else if os.counter0Ok = false then
    errExit [Step.queryPerfFreq true, Step.createJobObject true,
      Step.createIoCompletionPort true, Step.setInformationJobObject true,
      Step.createProcess true, Step.assignProcessToJob true,
      Step.closeHandle Handle.hprocess]
      (Step.queryPerfCounter false) "QueryPerformanceFrequency"
  else
    match wait_for_job_completion os.hjobKey os.queue with
    | none =>
        (okPrefix os.resumeOk ++ os.queue.map Step.dequeue, Outcome.blocked)
    | some consumed =>
        if os.counter1Ok = false then
          errExit (okPrefix os.resumeOk ++ consumed.map Step.dequeue ++ [Step.waitReturned])
            (Step.queryPerfCounter false) "QueryPerformanceFrequency"
        else if os.queryTimesOk = false then
          errExit (okPrefix os.resumeOk ++ consumed.map Step.dequeue ++
              [Step.waitReturned, Step.queryPerfCounter true])
            (Step.queryJobTimes false) "QueryInformationJobObject"
        else
          (okPrefix os.resumeOk ++ consumed.map Step.dequeue ++
            [Step.waitReturned, Step.queryPerfCounter true, Step.queryJobTimes true,
             Step.printLine (print_duration "real" ((os.counter1 - os.counter0) / os.freq)),
             Step.printLine (print_duration "user" (get_job_times os.userTicks os.kernelTicks).user),
             Step.printLine (print_duration "sys" (get_job_times os.userTicks os.kernelTicks).kernel),
             Step.exitProcess 0], Outcome.exited 0)

/-- All OS calls from the frequency query through the first counter sample
succeed. -/
def creationOk (os : Os) : Prop :=
  os.freqOk = true ∧ os.jobOk = true ∧ os.iocpOk = true ∧
  os.setInfoOk = true ∧ os.createProcOk = true ∧ os.attachOk = true ∧
  os.counter0Ok = true

/-- All checked OS calls of the run succeed. -/
def runOk (os : Os) : Prop :=
  creationOk os ∧ os.counter1Ok = true ∧ os.queryTimesOk = true

/-- The wait loop consumes at least the terminating event. -/
lemma wait_ne_nil (hjob : Nat) (evs consumed : List GqcsEvent)
    (h : wait_for_job_completion hjob evs = some consumed) : consumed ≠ [] := by
  induction evs generalizing consumed with
  | nil => simp [wait_for_job_completion] at h
  | cons e rest ih =>
      by_cases hs : stopsWait hjob e
      · simp [wait_for_job_completion, hs] at h
        simp [← h]
      · simp [wait_for_job_completion, hs] at h
        obtain ⟨c, hc, rfl⟩ := h
        simp

/-- If the queue never fails, the wait loop returns exactly when the queue
contains a packet whose key is the job handle and whose code is
ACTIVE_PROCESS_ZERO. -/
lemma wait_isSome_iff (hjob : Nat) (evs : List GqcsEvent)
    (hnf : ∀ e ∈ evs, e ≠ GqcsEvent.failure) :
    (wait_for_job_completion hjob evs).isSome = true ↔
      GqcsEvent.notif hjob JOB_OBJECT_MSG_ACTIVE_PROCESS_ZERO ∈ evs := by
  induction evs with
  | nil => simp [wait_for_job_completion]
  | cons e rest ih =>
      have hne : e ≠ GqcsEvent.failure := hnf e (by simp)
      have hrest : ∀ x ∈ rest, x ≠ GqcsEvent.failure := by
        intro x hx
        exact hnf x (by simp [hx])
      by_cases hs : stopsWait hjob e
      · have he : e = GqcsEvent.notif hjob JOB_OBJECT_MSG_ACTIVE_PROCESS_ZERO := by
          cases e with
          | failure => exact absurd rfl hne
          | notif key code =>
              simp [stopsWait] at hs
              simp [hs.1, hs.2]
        subst he
        simp [wait_for_job_completion, hs]
      · have he : e ≠ GqcsEvent.notif hjob JOB_OBJECT_MSG_ACTIVE_PROCESS_ZERO := by
          intro hcontra
          rw [hcontra] at hs
          simp [stopsWait] at hs
        simp [wait_for_job_completion, hs, ih hrest, he]
        intro hcontra
        exact absurd hcontra.symm he

/-- Every event the wait loop consumes before the terminating one does not
stop the loop: it is discarded and the loop keeps waiting. -/
lemma wait_dropLast_discarded (hjob : Nat) (evs consumed : List GqcsEvent)
    (h : wait_for_job_completion hjob evs = some consumed) :
    ∀ e ∈ consumed.dropLast, stopsWait hjob e = false := by
  induction evs generalizing consumed with
  | nil => simp [wait_for_job_completion] at h
  | cons e rest ih =>
      by_cases hs : stopsWait hjob e
      · simp [wait_for_job_completion, hs] at h
        simp [← h]
      · simp [wait_for_job_completion, hs] at h
        obtain ⟨c, hc, rfl⟩ := h
        have hcne : c ≠ [] := wait_ne_nil hjob rest c hc
        intro x hx
        rw [List.dropLast_cons_of_ne_nil hcne] at hx
        rcases List.mem_cons.mp hx with rfl | hx
        · simpa using hs
        · exact ih c hc x hx

/-- Claim C1: the wait loop of JobDescr::wait_for_job_completion returns
exactly when it dequeues a packet whose completion key equals the job handle
and whose message code is JOB_OBJECT_MSG_ACTIVE_PROCESS_ZERO; every other
packet delivered on the port is discarded and the loop keeps waiting.  This
holds over every sequence of packets the port delivers (dequeues that yield
a notification; a failing dequeue is not a notification and is treated by
claim C4). -/
theorem wait_returns_iff_active_zero (hjob : Nat) (evs : List GqcsEvent)
    (hnf : ∀ e ∈ evs, e ≠ GqcsEvent.failure) :
    ((wait_for_job_completion hjob evs).isSome = true ↔
      GqcsEvent.notif hjob JOB_OBJECT_MSG_ACTIVE_PROCESS_ZERO ∈ evs) ∧
    (∀ consumed, wait_for_job_completion hjob evs = some consumed →
      ∀ e ∈ consumed.dropLast, stopsWait hjob e = false) := by
  exact ⟨wait_isSome_iff hjob evs hnf,
    fun consumed hc => wait_dropLast_discarded hjob evs consumed hc⟩

/-- Witness for C1 at a concrete queue: an unrelated packet (other job),
a member-exited style packet (other code) are discarded, and the loop
returns exactly because the matching packet is present. -/
theorem wait_returns_iff_active_zero_witness :
    (∀ e ∈ [GqcsEvent.notif 2 4, GqcsEvent.notif 1 7, GqcsEvent.notif 1 4],
        e ≠ GqcsEvent.failure) ∧
    (((wait_for_job_completion 1
        [GqcsEvent.notif 2 4, GqcsEvent.notif 1 7, GqcsEvent.notif 1 4]).isSome = true ↔
      GqcsEvent.notif 1 JOB_OBJECT_MSG_ACTIVE_PROCESS_ZERO ∈
        [GqcsEvent.notif 2 4, GqcsEvent.notif 1 7, GqcsEvent.notif 1 4]) ∧
    (∀ consumed, wait_for_job_completion 1
        [GqcsEvent.notif 2 4, GqcsEvent.notif 1 7, GqcsEvent.notif 1 4] = some consumed →
      ∀ e ∈ consumed.dropLast, stopsWait 1 e = false)) := by
  refine ⟨by decide, wait_returns_iff_active_zero 1
    [GqcsEvent.notif 2 4, GqcsEvent.notif 1 7, GqcsEvent.notif 1 4] (by decide)⟩

/-- Trace of a run whose frequency query fails. -/
lemma shape_freq_fail (os : Os) (h : os.freqOk = false) :
    main_run os = ([Step.queryPerfFreq false,
      Step.printErr "QueryPerformanceFrequency", Step.exitProcess 2],
      Outcome.exited 2) := by
  simp [main_run, errExit, h]

/-- Trace of a run whose job creation fails. -/
lemma shape_job_fail (os : Os) (h1 : os.freqOk = true) (h : os.jobOk = false) :
    main_run os = ([Step.queryPerfFreq true, Step.createJobObject false,
      Step.printErr "CreateJobObjectW", Step.exitProcess 2],
      Outcome.exited 2) := by
  simp [main_run, errExit, h1, h]

/-- Trace of a run whose completion-port creation fails. -/
lemma shape_iocp_fail (os : Os) (h1 : os.freqOk = true) (h2 : os.jobOk = true)
    (h : os.iocpOk = false) :
    main_run os = ([Step.queryPerfFreq true, Step.createJobObject true,
      Step.createIoCompletionPort false,
      Step.printErr "CreateIoCompletionPort", Step.exitProcess 2],
      Outcome.exited 2) := by
  simp [main_run, errExit, h1, h2, h]

/-- Trace of a run whose job-to-port association fails. -/
lemma shape_setinfo_fail (os : Os) (h1 : os.freqOk = true) (h2 : os.jobOk = true)
    (h3 : os.iocpOk = true) (h : os.setInfoOk = false) :
    main_run os = ([Step.queryPerfFreq true, Step.createJobObject true,
      Step.createIoCompletionPort true, Step.setInformationJobObject false,
      Step.printErr "SetInformationJobObject", Step.exitProcess 2],
      Outcome.exited 2) := by
  simp [main_run, errExit, h1, h2, h3, h]

/-- Trace of a run whose process creation fails. -/
lemma shape_createproc_fail (os : Os) (h1 : os.freqOk = true) (h2 : os.jobOk = true)
    (h3 : os.iocpOk = true) (h4 : os.setInfoOk = true) (h : os.createProcOk = false) :
    main_run os = ([Step.queryPerfFreq true, Step.createJobObject true,
      Step.createIoCompletionPort true, Step.setInformationJobObject true,
      Step.createProcess false,
      Step.printErr "CreateProcessW", Step.exitProcess 2],
      Outcome.exited 2) := by
  simp [main_run, errExit, h1, h2, h3, h4, h]

/-- Trace of a run whose attach fails: note that no closeHandle step occurs,
because std::process::exit runs no Drop implementations. -/
lemma shape_attach_fail (os : Os) (h1 : os.freqOk = true) (h2 : os.jobOk = true)
    (h3 : os.iocpOk = true) (h4 : os.setInfoOk = true) (h5 : os.createProcOk = true)
    (h : os.attachOk = false) :
    main_run os = ([Step.queryPerfFreq true, Step.createJobObject true,
      Step.createIoCompletionPort true, Step.setInformationJobObject true,
      Step.createProcess true, Step.assignProcessToJob false,
      Step.printErr "AssignProcessToJobObject", Step.exitProcess 2],
      Outcome.exited 2) := by
  simp [main_run, errExit, h1, h2, h3, h4, h5, h]

/-- Trace of a run whose first counter sample fails (the source passes the
caller name "QueryPerformanceFrequency" to the assertion there). -/
lemma shape_counter0_fail (os : Os) (h1 : os.freqOk = true) (h2 : os.jobOk = true)
    (h3 : os.iocpOk = true) (h4 : os.setInfoOk = true) (h5 : os.createProcOk = true)
    (h6 : os.attachOk = true) (h : os.counter0Ok = false) :
    main_run os = ([Step.queryPerfFreq true, Step.createJobObject true,
      Step.createIoCompletionPort true, Step.setInformationJobObject true,
      Step.createProcess true, Step.assignProcessToJob true,
      Step.closeHandle Handle.hprocess, Step.queryPerfCounter false,
      Step.printErr "QueryPerformanceFrequency", Step.exitProcess 2],
      Outcome.exited 2) := by
  simp [main_run, errExit, h1, h2, h3, h4, h5, h6, h]

/-- Trace of a run that stays blocked in the wait loop because the queue
never delivers a stopping packet. -/
lemma shape_blocked (os : Os) (h : creationOk os)
    (hw : wait_for_job_completion os.hjobKey os.queue = none) :
    main_run os = (okPrefix os.resumeOk ++ os.queue.map Step.dequeue,
      Outcome.blocked) := by
  obtain ⟨h1, h2, h3, h4, h5, h6, h7⟩ := h
  simp [main_run, errExit, h1, h2, h3, h4, h5, h6, h7, hw]

/-- Trace of a run whose second counter sample fails. -/
lemma shape_counter1_fail (os : Os) (consumed : List GqcsEvent) (h : creationOk os)
    (hw : wait_for_job_completion os.hjobKey os.queue = some consumed)
    (hc : os.counter1Ok = false) :
    main_run os = (okPrefix os.resumeOk ++ consumed.map Step.dequeue ++
      [Step.waitReturned, Step.queryPerfCounter false,
       Step.printErr "QueryPerformanceFrequency", Step.exitProcess 2],
      Outcome.exited 2) := by
  obtain ⟨h1, h2, h3, h4, h5, h6, h7⟩ := h
  simp [main_run, errExit, h1, h2, h3, h4, h5, h6, h7, hw, hc]

/-- Trace of a run whose accounting query fails. -/
lemma shape_querytimes_fail (os : Os) (consumed : List GqcsEvent) (h : creationOk os)
    (hw : wait_for_job_completion os.hjobKey os.queue = some consumed)
    (hc : os.counter1Ok = true) (hq : os.queryTimesOk = false) :
    main_run os = (okPrefix os.resumeOk ++ consumed.map Step.dequeue ++
      [Step.waitReturned, Step.queryPerfCounter true, Step.queryJobTimes false,
       Step.printErr "QueryInformationJobObject", Step.exitProcess 2],
      Outcome.exited 2) := by
  obtain ⟨h1, h2, h3, h4, h5, h6, h7⟩ := h
  simp [main_run, errExit, h1, h2, h3, h4, h5, h6, h7, hw, hc, hq]

/-- Trace of a fully successful run. -/
lemma shape_success (os : Os) (consumed : List GqcsEvent) (h : runOk os)
    (hw : wait_for_job_completion os.hjobKey os.queue = some consumed) :
    main_run os = (okPrefix os.resumeOk ++ consumed.map Step.dequeue ++
      [Step.waitReturned, Step.queryPerfCounter true, Step.queryJobTimes true,
       Step.printLine (print_duration "real" ((os.counter1 - os.counter0) / os.freq)),
       Step.printLine (print_duration "user" (get_job_times os.userTicks os.kernelTicks).user),
       Step.printLine (print_duration "sys" (get_job_times os.userTicks os.kernelTicks).kernel),
       Step.exitProcess 0], Outcome.exited 0) := by
  obtain ⟨⟨h1, h2, h3, h4, h5, h6, h7⟩, h8, h9⟩ := h
  simp [main_run, errExit, h1, h2, h3, h4, h5, h6, h7, h8, h9, hw]

/-- In a list that starts with okPrefix and whose tail holds no resume step,
every occurrence of the resume step is preceded by a successful attach. -/
lemma resume_in_okPrefix_append (rb : Bool) (rest : List Step) (i : Nat) (b : Bool)
    (hrest : ∀ c, Step.resumeThread c ∉ rest)
    (h : (okPrefix rb ++ rest)[i]? = some (Step.resumeThread b)) :
    ∃ j, j < i ∧ (okPrefix rb ++ rest)[j]? = some (Step.assignProcessToJob true) := by
  have hlen : (okPrefix rb).length = 10 := by simp [okPrefix]
  by_cases hi : i < 10
  · rw [List.getElem?_append] at h
    rw [hlen] at h
    simp [hi] at h
    interval_cases i <;> simp [okPrefix] at h
    exact ⟨5, by omega, by simp [okPrefix, List.getElem?_append]⟩
  · rw [List.getElem?_append] at h
    rw [hlen] at h
    simp [hi] at h
    exact absurd (List.getElem?_mem h) (hrest b)

/-- Claim C2: in every run, the launched process is attached to the job
(AssignProcessToJobObject succeeding) strictly before its initial thread is
resumed; the program never reaches a state where the thread has been resumed
without the process being a job member, because any failure before the
attach exits the process before the resume step. -/
theorem attach_strictly_before_resume (os : Os) (i : Nat) (b : Bool)
    (h : (main_run os).1[i]? = some (Step.resumeThread b)) :
    ∃ j, j < i ∧ (main_run os).1[j]? = some (Step.assignProcessToJob true) := by
  by_cases h1 : os.freqOk = true
  · by_cases h2 : os.jobOk = true
    · by_cases h3 : os.iocpOk = true
      · by_cases h4 : os.setInfoOk = true
        · by_cases h5 : os.createProcOk = true
          · by_cases h6 : os.attachOk = true
            · by_cases h7 : os.counter0Ok = true
              · have hcre : creationOk os := ⟨h1, h2, h3, h4, h5, h6, h7⟩
                cases hw : wait_for_job_completion os.hjobKey os.queue with
                | none =>
                    rw [shape_blocked os hcre hw] at h ⊢
                    refine resume_in_okPrefix_append os.resumeOk _ i b ?_ h
                    intro c hc
                    simp [List.mem_map] at hc
                | some consumed =>
                    by_cases h8 : os.counter1Ok = true
                    · by_cases h9 : os.queryTimesOk = true
                      · rw [shape_success os consumed ⟨hcre, h8, h9⟩ hw] at h ⊢
                        refine resume_in_okPrefix_append os.resumeOk _ i b ?_ h
                        intro c hc
                        simp [List.mem_append, List.mem_map] at hc
                      · rw [shape_querytimes_fail os consumed hcre hw h8
                          (by simpa using h9)] at h ⊢
                        refine resume_in_okPrefix_append os.resumeOk _ i b ?_ h
                        intro c hc
                        simp [List.mem_append, List.mem_map] at hc
                    · rw [shape_counter1_fail os consumed hcre hw
                        (by simpa using h8)] at h ⊢
                      refine resume_in_okPrefix_append os.resumeOk _ i b ?_ h
                      intro c hc
                      simp [List.mem_append, List.mem_map] at hc
              · rw [shape_counter0_fail os h1 h2 h3 h4 h5 h6 (by simpa using h7)] at h
                have := List.getElem?_mem h
                simp at this
            · rw [shape_attach_fail os h1 h2 h3 h4 h5 (by simpa using h6)] at h
              have := List.getElem?_mem h
              simp at this
          · rw [shape_createproc_fail os h1 h2 h3 h4 (by simpa using h5)] at h
            have := List.getElem?_mem h
            simp at this
        · rw [shape_setinfo_fail os h1 h2 h3 (by simpa using h4)] at h
          have := List.getElem?_mem h
          simp at this
      · rw [shape_iocp_fail os h1 h2 (by simpa using h3)] at h
        have := List.getElem?_mem h
        simp at this
    · rw [shape_job_fail os h1 (by simpa using h2)] at h
      have := List.getElem?_mem h
      simp at this
  · rw [shape_freq_fail os (by simpa using h1)] at h
    have := List.getElem?_mem h
    simp at this

/-- Elements of the final literal segment of a success-shaped trace, fetched
through the length of the okPrefix-plus-dequeues part. -/
lemma getElem_tail_lit (rb : Bool) (M lit : List Step) (k : Nat) :
    ((okPrefix rb ++ M) ++ lit)[10 + M.length + k]? = lit[k]? := by
  have hlen : (okPrefix rb ++ M).length = 10 + M.length := by
    simp [okPrefix]
    omega
  have hnot : ¬ (10 + M.length + k < 10 + M.length) := by omega
  have harg : 10 + M.length + k - (10 + M.length) = k := by omega
  rw [List.getElem?_append, hlen, if_neg hnot, harg]

/-- A concrete fully successful oracle: job key 1, frequency 2 ticks per
second, counter samples 3 and 7, one stopping packet, user ticks
20 000 000, kernel ticks 10 000 000. -/
def osAllOk : Os :=
  Os.mk 1 true 2 true true true true true true 3 true
    [GqcsEvent.notif 1 4] true 7 true 20000000 10000000

/-- Every checked call of the concrete oracle osAllOk succeeds. -/
lemma osAllOk_runOk : runOk osAllOk :=
  ⟨⟨rfl, rfl, rfl, rfl, rfl, rfl, rfl⟩, rfl, rfl⟩

/-- Witness for C2 at a concrete successful run: the resume step sits at
index 8 of the trace and a successful attach precedes it. -/
theorem attach_strictly_before_resume_witness :
    (main_run osAllOk).1[8]? = some (Step.resumeThread true) ∧
    (∃ j, j < 8 ∧ (main_run osAllOk).1[j]? = some (Step.assignProcessToJob true)) :=
  ⟨by decide, attach_strictly_before_resume osAllOk 8 true (by decide)⟩

/-- A concrete oracle whose AssignProcessToJobObject call fails; every
earlier call succeeds. -/
def osAttachFail : Os :=
  Os.mk 1 true 1 true true true true false true 0 true [] true 0 true 0 0

/-- Counterexample to claim C3 as stated: on the run whose attach fails, the
process handle has been acquired (CreateProcessW succeeded) but the fatal
path goes through std::process::exit, which runs no Drop implementations, so
no CloseHandle is ever issued for it: the handle is not released on this
exit path.  (The job and port handles are likewise never closed by the
program on any path, since JobDescr has no Drop implementation.) -/
theorem handle_hygiene_counterexample :
    Step.createProcess true ∈ (main_run osAttachFail).1 ∧
    Step.closeHandle Handle.hprocess ∉ (main_run osAttachFail).1 ∧
    (main_run osAttachFail).2 = Outcome.exited 2 := by
  decide

/-- Claim C3, amended: on the fully successful path the process and thread
handles are each closed exactly once (by the Drop implementations of
ProcessDescr and ThreadDescr), but the job and completion-port handles are
never closed by the program (JobDescr has no Drop implementation; the OS
reclaims them only at process termination); and on a fatal path (shown for
an attach failure) std::process::exit runs no destructors, so the program
closes no handle at all there. -/
theorem handle_release_amended (os : Os) (consumed : List GqcsEvent)
    (h : runOk os)
    (hw : wait_for_job_completion os.hjobKey os.queue = some consumed) :
    ((main_run os).1.count (Step.closeHandle Handle.hprocess) = 1 ∧
     (main_run os).1.count (Step.closeHandle Handle.hthread) = 1 ∧
     Step.closeHandle Handle.hjob ∉ (main_run os).1 ∧
     Step.closeHandle Handle.hiocp ∉ (main_run os).1) ∧
    (∀ os2 : Os, os2.freqOk = true → os2.jobOk = true → os2.iocpOk = true →
      os2.setInfoOk = true → os2.createProcOk = true → os2.attachOk = false →
      Step.createProcess true ∈ (main_run os2).1 ∧
      Step.closeHandle Handle.hprocess ∉ (main_run os2).1 ∧
      Step.closeHandle Handle.hthread ∉ (main_run os2).1) := by
  constructor
  · rw [shape_success os consumed h hw]
    refine ⟨?_, ?_, ?_, ?_⟩ <;>
      simp [okPrefix, List.count_append, List.count_cons, List.count_eq_zero,
        List.mem_map, List.mem_append]
  · intro os2 g1 g2 g3 g4 g5 g6
    rw [shape_attach_fail os2 g1 g2 g3 g4 g5 g6]
    refine ⟨by simp, by simp, by simp⟩

/-- Witness for the amended C3 at a concrete successful run. -/
theorem handle_release_amended_witness :
    runOk osAllOk ∧
    ((main_run osAllOk).1.count (Step.closeHandle Handle.hprocess) = 1 ∧
     (main_run osAllOk).1.count (Step.closeHandle Handle.hthread) = 1 ∧
     Step.closeHandle Handle.hjob ∉ (main_run osAllOk).1 ∧
     Step.closeHandle Handle.hiocp ∉ (main_run osAllOk).1) :=
  ⟨osAllOk_runOk,
    (handle_release_amended osAllOk [GqcsEvent.notif 1 4] osAllOk_runOk rfl).1⟩

/-- A concrete oracle on which ResumeThread fails while every checked call
succeeds. -/
def osResumeFail : Os :=
  Os.mk 1 true 2 true true true true true true 3 false
    [GqcsEvent.notif 1 4] true 7 true 20000000 10000000

/-- Counterexample to claim C4 as stated: ThreadDescr::resume discards the
result of ResumeThread (src/src/main.rs line 75), so a failure indication
from the thread-resume call is silently ignored: the run still completes
with exit code 0, prints no diagnostic and never exits with code 2. -/
theorem error_policy_counterexample :
    Step.resumeThread false ∈ (main_run osResumeFail).1 ∧
    (main_run osResumeFail).2 = Outcome.exited 0 ∧
    Step.exitProcess 2 ∉ (main_run osResumeFail).1 ∧
    Step.printErr "ResumeThread" ∉ (main_run osResumeFail).1 := by
  decide

/-- Claim C4, amended: every checked OS call (frequency query, job creation,
port creation, job-to-port association, process creation, attach, both
counter samples, accounting query) on failure makes the program print a
diagnostic naming an operation together with the platform error description
and exit with code 2; however the counter-sample failures print the name
"QueryPerformanceFrequency" instead of "QueryPerformanceCounter" (source
line 116), the thread-resume call's failure indication is discarded
entirely, and a failing dequeue ends the wait loop silently: the run then
completes with exit code 0 whatever the resume flag was. -/
theorem error_policy_amended (os : Os) :
    (os.freqOk = false →
      (main_run os).2 = Outcome.exited 2 ∧
      Step.printErr "QueryPerformanceFrequency" ∈ (main_run os).1) ∧
    (os.freqOk = true → os.jobOk = false →
      (main_run os).2 = Outcome.exited 2 ∧
      Step.printErr "CreateJobObjectW" ∈ (main_run os).1) ∧
    (os.freqOk = true → os.jobOk = true → os.iocpOk = false →
      (main_run os).2 = Outcome.exited 2 ∧
      Step.printErr "CreateIoCompletionPort" ∈ (main_run os).1) ∧
    (os.freqOk = true → os.jobOk = true → os.iocpOk = true → os.setInfoOk = false →
      (main_run os).2 = Outcome.exited 2 ∧
      Step.printErr "SetInformationJobObject" ∈ (main_run os).1) ∧
    (os.freqOk = true → os.jobOk = true → os.iocpOk = true → os.setInfoOk = true →
      os.createProcOk = false →
      (main_run os).2 = Outcome.exited 2 ∧
      Step.printErr "CreateProcessW" ∈ (main_run os).1) ∧
    (os.freqOk = true → os.jobOk = true → os.iocpOk = true → os.setInfoOk = true →
      os.createProcOk = true → os.attachOk = false →
      (main_run os).2 = Outcome.exited 2 ∧
      Step.printErr "AssignProcessToJobObject" ∈ (main_run os).1) ∧
    (os.freqOk = true → os.jobOk = true → os.iocpOk = true → os.setInfoOk = true →
      os.createProcOk = true → os.attachOk = true → os.counter0Ok = false →
      (main_run os).2 = Outcome.exited 2 ∧
      Step.printErr "QueryPerformanceFrequency" ∈ (main_run os).1) ∧
    (∀ consumed, creationOk os →
      wait_for_job_completion os.hjobKey os.queue = some consumed →
      os.counter1Ok = false →
      (main_run os).2 = Outcome.exited 2 ∧
      Step.printErr "QueryPerformanceFrequency" ∈ (main_run os).1) ∧
    (∀ consumed, creationOk os →
      wait_for_job_completion os.hjobKey os.queue = some consumed →
      os.counter1Ok = true → os.queryTimesOk = false →
      (main_run os).2 = Outcome.exited 2 ∧
      Step.printErr "QueryInformationJobObject" ∈ (main_run os).1) ∧
    (∀ consumed, runOk os →
      wait_for_job_completion os.hjobKey os.queue = some consumed →
      (main_run os).2 = Outcome.exited 0 ∧
      (∀ opName, Step.printErr opName ∉ (main_run os).1)) := by
  refine ⟨?_, ?_, ?_, ?_, ?_, ?_, ?_, ?_, ?_, ?_⟩
  · intro g1
    rw [shape_freq_fail os g1]
    exact ⟨rfl, by simp⟩
  · intro g1 g2
    rw [shape_job_fail os g1 g2]
    exact ⟨rfl, by simp⟩
  · intro g1 g2 g3
    rw [shape_iocp_fail os g1 g2 g3]
    exact ⟨rfl, by simp⟩
  · intro g1 g2 g3 g4
    rw [shape_setinfo_fail os g1 g2 g3 g4]
    exact ⟨rfl, by simp⟩
  · intro g1 g2 g3 g4 g5
    rw [shape_createproc_fail os g1 g2 g3 g4 g5]
    exact ⟨rfl, by simp⟩
  · intro g1 g2 g3 g4 g5 g6
    rw [shape_attach_fail os g1 g2 g3 g4 g5 g6]
    exact ⟨rfl, by simp⟩
  · intro g1 g2 g3 g4 g5 g6 g7
    rw [shape_counter0_fail os g1 g2 g3 g4 g5 g6 g7]
    exact ⟨rfl, by simp⟩
  · intro consumed hcre hw g8
    rw [shape_counter1_fail os consumed hcre hw g8]
    exact ⟨rfl, by simp⟩
  · intro consumed hcre hw g8 g9
    rw [shape_querytimes_fail os consumed hcre hw g8 g9]
    exact ⟨rfl, by simp⟩
  · intro consumed hok hw
    rw [shape_success os consumed hok hw]
    refine ⟨rfl, ?_⟩
    intro opName
    simp [okPrefix, List.mem_append, List.mem_map]

/-- A concrete oracle whose frequency query fails. -/
def osFreqFail : Os :=
  Os.mk 1 false 1 true true true true true true 0 true [] true 0 true 0 0

/-- Witness for the amended C4 at a concrete run whose frequency query
fails: the run exits with code 2 after printing the operation name. -/
theorem error_policy_amended_witness :
    osFreqFail.freqOk = false ∧
    ((main_run osFreqFail).2 = Outcome.exited 2 ∧
     Step.printErr "QueryPerformanceFrequency" ∈ (main_run osFreqFail).1) :=
  ⟨rfl, (error_policy_amended osFreqFail).1 rfl⟩

/-- Claim C5: the reported wall time is the difference of the two counter
samples divided by the queried frequency, (t1 - t0) / frequency, with no
assumption that the frequency is 1 tick per second; moreover the first
sample is taken immediately before the resume step (trace indices 7 and 8)
and the second immediately after the wait loop returns (the steps following
waitReturned). -/
theorem wall_time_formula (os : Os) (consumed : List GqcsEvent)
    (h : runOk os)
    (hw : wait_for_job_completion os.hjobKey os.queue = some consumed) :
    Step.printLine (print_duration "real"
      ((os.counter1 - os.counter0) / os.freq)) ∈ (main_run os).1 ∧
    (main_run os).1[7]? = some (Step.queryPerfCounter true) ∧
    (main_run os).1[8]? = some (Step.resumeThread os.resumeOk) ∧
    (main_run os).1[10 + consumed.length]? = some Step.waitReturned ∧
    (main_run os).1[11 + consumed.length]? = some (Step.queryPerfCounter true) := by
  rw [shape_success os consumed h hw]
  have hM : (consumed.map Step.dequeue).length = consumed.length := by simp
  refine ⟨by simp, ?_, ?_, ?_, ?_⟩
  · rfl
  · rfl
  · have := getElem_tail_lit os.resumeOk (consumed.map Step.dequeue)
      [Step.waitReturned, Step.queryPerfCounter true, Step.queryJobTimes true,
       Step.printLine (print_duration "real" ((os.counter1 - os.counter0) / os.freq)),
       Step.printLine (print_duration "user" (get_job_times os.userTicks os.kernelTicks).user),
       Step.printLine (print_duration "sys" (get_job_times os.userTicks os.kernelTicks).kernel),
       Step.exitProcess 0] 0
    rw [hM] at this
    simpa using this
  · have := getElem_tail_lit os.resumeOk (consumed.map Step.dequeue)
      [Step.waitReturned, Step.queryPerfCounter true, Step.queryJobTimes true,
       Step.printLine (print_duration "real" ((os.counter1 - os.counter0) / os.freq)),
       Step.printLine (print_duration "user" (get_job_times os.userTicks os.kernelTicks).user),
       Step.printLine (print_duration "sys" (get_job_times os.userTicks os.kernelTicks).kernel),
       Step.exitProcess 0] 1
    rw [hM] at this
    have harith : 10 + consumed.length + 1 = 11 + consumed.length := by omega
    rw [harith] at this
    simpa using this

/-- Witness for C5 at a concrete successful run with frequency 2, samples 3
and 7, and one consumed packet. -/
theorem wall_time_formula_witness :
    runOk osAllOk ∧
    (Step.printLine (print_duration "real"
      ((osAllOk.counter1 - osAllOk.counter0) / osAllOk.freq)) ∈ (main_run osAllOk).1 ∧
    (main_run osAllOk).1[7]? = some (Step.queryPerfCounter true) ∧
    (main_run osAllOk).1[8]? = some (Step.resumeThread osAllOk.resumeOk) ∧
    (main_run osAllOk).1[11]? = some Step.waitReturned ∧
    (main_run osAllOk).1[12]? = some (Step.queryPerfCounter true)) :=
  ⟨osAllOk_runOk, wall_time_formula osAllOk [GqcsEvent.notif 1 4] osAllOk_runOk rfl⟩

/-- Claim C6: get_job_times converts the job's cumulative user and kernel
tick counts to seconds by dividing by the fixed constant 10 000 000 (the
100-nanosecond accounting tick resolution); the divisor is a literal
constant, independent of the TimerSource frequency: the printed user and
sys values are ticks / 10 000 000 with os.freq nowhere in the formula. -/
theorem accounting_fixed_divisor (os : Os) (consumed : List GqcsEvent)
    (h : runOk os)
    (hw : wait_for_job_completion os.hjobKey os.queue = some consumed) :
    (∀ u k : Int, get_job_times u k =
      Times.mk ((u : ℚ) / 10000000) ((k : ℚ) / 10000000)) ∧
    Step.printLine (print_duration "user"
      ((os.userTicks : ℚ) / 10000000)) ∈ (main_run os).1 ∧
    Step.printLine (print_duration "sys"
      ((os.kernelTicks : ℚ) / 10000000)) ∈ (main_run os).1 := by
  refine ⟨fun u k => rfl, ?_, ?_⟩ <;>
    rw [shape_success os consumed h hw] <;>
    simp [get_job_times, to_seconds, List.mem_append]

/-- Witness for C6 at a concrete successful run. -/
theorem accounting_fixed_divisor_witness :
    runOk osAllOk ∧
    ((∀ u k : Int, get_job_times u k =
      Times.mk ((u : ℚ) / 10000000) ((k : ℚ) / 10000000)) ∧
    Step.printLine (print_duration "user"
      ((osAllOk.userTicks : ℚ) / 10000000)) ∈ (main_run osAllOk).1 ∧
    Step.printLine (print_duration "sys"
      ((osAllOk.kernelTicks : ℚ) / 10000000)) ∈ (main_run osAllOk).1) :=
  ⟨osAllOk_runOk, accounting_fixed_divisor osAllOk [GqcsEvent.notif 1 4] osAllOk_runOk rfl⟩

/-- The duration-line content a step prints, if any. -/
def lineOf : Step → Option String
  | Step.printLine s => some s
  | _ => none

/-- Claim C7: a successful run emits exactly three duration lines, in the
order real, user, sys, and print_duration renders
"<label>\t<minutes>m<seconds with 3 decimal places>s" where minutes is
floor(s) / 60 in truncating integer division and the seconds field is
s - 60 * minutes. -/
theorem output_line_format (os : Os) (consumed : List GqcsEvent)
    (h : runOk os)
    (hw : wait_for_job_completion os.hjobKey os.queue = some consumed) :
    (main_run os).1.filterMap lineOf =
      [print_duration "real" ((os.counter1 - os.counter0) / os.freq),
       print_duration "user" (get_job_times os.userTicks os.kernelTicks).user,
       print_duration "sys" (get_job_times os.userTicks os.kernelTicks).kernel] ∧
    (∀ name s, print_duration name s =
      name ++ "\t" ++ toString (Int.tdiv ⌊s⌋ 60) ++ "m" ++
        fmt3 (s - 60 * ((Int.tdiv ⌊s⌋ 60 : Int) : ℚ)) ++ "s") := by
  constructor
  · rw [shape_success os consumed h hw]
    simp [okPrefix, List.filterMap_append, lineOf]
  · intro name s
    rfl

/-- Witness for C7 at a concrete successful run. -/
theorem output_line_format_witness :
    runOk osAllOk ∧
    (main_run osAllOk).1.filterMap lineOf =
      [print_duration "real" ((osAllOk.counter1 - osAllOk.counter0) / osAllOk.freq),
       print_duration "user" (get_job_times osAllOk.userTicks osAllOk.kernelTicks).user,
       print_duration "sys" (get_job_times osAllOk.userTicks osAllOk.kernelTicks).kernel] :=
  ⟨osAllOk_runOk,
    (output_line_format osAllOk [GqcsEvent.notif 1 4] osAllOk_runOk rfl).1⟩

/-- Claim C8: in every successful run the accounting query (index
12 + consumed.length) happens strictly after the wait loop has returned
(index 10 + consumed.length) and strictly before the job and port handles
are released: the program itself never closes either handle (JobDescr has
no Drop implementation), so both are reclaimed together by the OS only at
process termination, the final exitProcess step at index
16 + consumed.length of the 17 + consumed.length step trace, after the
accounting has been read. -/
theorem accounting_after_wait_before_teardown (os : Os) (consumed : List GqcsEvent)
    (h : runOk os)
    (hw : wait_for_job_completion os.hjobKey os.queue = some consumed) :
    (main_run os).1[10 + consumed.length]? = some Step.waitReturned ∧
    (main_run os).1[12 + consumed.length]? = some (Step.queryJobTimes true) ∧
    Step.closeHandle Handle.hjob ∉ (main_run os).1 ∧
    Step.closeHandle Handle.hiocp ∉ (main_run os).1 ∧
    (main_run os).1[16 + consumed.length]? = some (Step.exitProcess 0) ∧
    (main_run os).1.length = 17 + consumed.length := by
  rw [shape_success os consumed h hw]
  have hM : (consumed.map Step.dequeue).length = consumed.length := by simp
  have hlit := fun k => getElem_tail_lit os.resumeOk (consumed.map Step.dequeue)
      [Step.waitReturned, Step.queryPerfCounter true, Step.queryJobTimes true,
       Step.printLine (print_duration "real" ((os.counter1 - os.counter0) / os.freq)),
       Step.printLine (print_duration "user" (get_job_times os.userTicks os.kernelTicks).user),
       Step.printLine (print_duration "sys" (get_job_times os.userTicks os.kernelTicks).kernel),
       Step.exitProcess 0] k
  refine ⟨?_, ?_, ?_, ?_, ?_, ?_⟩
  · have := hlit 0
    rw [hM] at this
    simpa using this
  · have := hlit 2
    rw [hM, (by omega : 10 + consumed.length + 2 = 12 + consumed.length)] at this
    simpa using this
  · simp [okPrefix, List.mem_append, List.mem_map]
  · simp [okPrefix, List.mem_append, List.mem_map]
  · have := hlit 6
    rw [hM, (by omega : 10 + consumed.length + 6 = 16 + consumed.length)] at this
    simpa using this
  · simp [okPrefix]
    omega

/-- Witness for C8 at a concrete successful run with one consumed packet. -/
theorem accounting_after_wait_before_teardown_witness :
    runOk osAllOk ∧
    ((main_run osAllOk).1[11]? = some Step.waitReturned ∧
    (main_run osAllOk).1[13]? = some (Step.queryJobTimes true) ∧
    Step.closeHandle Handle.hjob ∉ (main_run osAllOk).1 ∧
    Step.closeHandle Handle.hiocp ∉ (main_run osAllOk).1 ∧
    (main_run osAllOk).1[17]? = some (Step.exitProcess 0) ∧
    (main_run osAllOk).1.length = 18) :=
  ⟨osAllOk_runOk,
    accounting_after_wait_before_teardown osAllOk [GqcsEvent.notif 1 4] osAllOk_runOk rfl⟩

/-- Claim C9: for every run that completes successfully, under the platform
guarantees that the monotonic counter does not decrease between the two
samples, the frequency is positive and the accounting tick counts are
nonnegative, each of the three reported durations is nonnegative. -/
theorem reported_durations_nonneg (os : Os) (consumed : List GqcsEvent)
    (h : runOk os)
    (hw : wait_for_job_completion os.hjobKey os.queue = some consumed)
    (hmono : os.counter0 ≤ os.counter1) (hfreq : 0 < os.freq)
    (hu : 0 ≤ os.userTicks) (hk : 0 ≤ os.kernelTicks) :
    (main_run os).2 = Outcome.exited 0 ∧
    0 ≤ (os.counter1 - os.counter0) / os.freq ∧
    0 ≤ (get_job_times os.userTicks os.kernelTicks).user ∧
    0 ≤ (get_job_times os.userTicks os.kernelTicks).kernel ∧
    Step.printLine (print_duration "real"
      ((os.counter1 - os.counter0) / os.freq)) ∈ (main_run os).1 ∧
    Step.printLine (print_duration "user"
      (get_job_times os.userTicks os.kernelTicks).user) ∈ (main_run os).1 ∧
    Step.printLine (print_duration "sys"
      (get_job_times os.userTicks os.kernelTicks).kernel) ∈ (main_run os).1 := by
  rw [shape_success os consumed h hw]
  refine ⟨rfl, ?_, ?_, ?_, by simp, by simp, by simp⟩
  · exact div_nonneg (by linarith) hfreq.le
  · have : (0 : ℚ) ≤ (os.userTicks : ℚ) := by exact_mod_cast hu
    simpa [get_job_times, to_seconds] using div_nonneg this (by norm_num)
  · have : (0 : ℚ) ≤ (os.kernelTicks : ℚ) := by exact_mod_cast hk
    simpa [get_job_times, to_seconds] using div_nonneg this (by norm_num)

/-- Witness for C9 at a concrete successful run. -/
theorem reported_durations_nonneg_witness :
    (runOk osAllOk ∧ osAllOk.counter0 ≤ osAllOk.counter1 ∧ 0 < osAllOk.freq ∧
      0 ≤ osAllOk.userTicks ∧ 0 ≤ osAllOk.kernelTicks) ∧
    ((main_run osAllOk).2 = Outcome.exited 0 ∧
    0 ≤ (osAllOk.counter1 - osAllOk.counter0) / osAllOk.freq ∧
    0 ≤ (get_job_times osAllOk.userTicks osAllOk.kernelTicks).user ∧
    0 ≤ (get_job_times osAllOk.userTicks osAllOk.kernelTicks).kernel ∧
    Step.printLine (print_duration "real"
      ((osAllOk.counter1 - osAllOk.counter0) / osAllOk.freq)) ∈ (main_run osAllOk).1 ∧
    Step.printLine (print_duration "user"
      (get_job_times osAllOk.userTicks osAllOk.kernelTicks).user) ∈ (main_run osAllOk).1 ∧
    Step.printLine (print_duration "sys"
      (get_job_times osAllOk.userTicks osAllOk.kernelTicks).kernel) ∈ (main_run osAllOk).1) :=
  ⟨⟨osAllOk_runOk, by norm_num [osAllOk], by norm_num [osAllOk], by decide, by decide⟩,
    reported_durations_nonneg osAllOk [GqcsEvent.notif 1 4] osAllOk_runOk rfl
      (by norm_num [osAllOk]) (by norm_num [osAllOk]) (by decide) (by decide)⟩

/-- Claim C10: the command line handed to CreateProcessW is the remaining
argument tokens joined with single spaces, UTF-16 encoded with exactly one
terminating NUL and no quoting or escaping; consequently one argument
containing a space yields the same command line as the two separate
arguments. -/
theorem command_line_join_no_quoting :
    (∀ args : List String,
      command_line args = convert_utf16 (String.intercalate " " args)) ∧
    (∀ args : List String, (command_line args).getLast? = some 0) ∧
    command_line ["a b"] = command_line ["a", "b"] := by
  refine ⟨fun args => rfl, fun args => List.getLast?_concat _, by decide⟩

end Cmdtime
